import Mathlib

/-!
Verification development for the document-processing and search subsystem
of the facetodockfetch repository.

The Python source is shallowly embedded: the relevant functions of
`app/tasks/document_processing.py`, `app/routes/documents.py`,
`app/services/ocr_service.py`, `app/services/face_recognition.py`,
`app/services/elasticsearch_service.py` and `app/services/search_service.py`
become pure Lean functions.  External collaborators (the OCR engine, the
MRZ checker library, the Elasticsearch backend, SHA-256, the float
`np.linalg.norm`) are parameters of the embedding: the repository code is
modelled exactly, while the externals appear as oracle inputs.
Floating point arithmetic is modelled with exact rationals.
-/

namespace DocPipeline

/-! ### Processing orchestrator (`app/tasks/document_processing.py`)

`process_document_task` is embedded as a pure function of an environment
that records what the external world (database presence of the document,
the OCR engine's success per attempt, MRZ extraction, and any
orchestrator-level exception) would do.  Per the source, an exception can
only arise after the OCR retry loop commits its rows one at a time, so the
environment's `orchestratorError` is modelled as arising in the
face-detection phase (step 2 of the task). -/

structure PipelineEnv where
  /-- db.query(Document).first() finds the row. -/
  documentExists : Bool
  /-- Outcome of `ocr_service.extract_text_from_*` at each attempt number:
  `true` means the returned dict has `success = True`. -/
  ocr : Nat → Bool
  /-- Value of `settings.MAX_RETRIES_OCR` (default 3). -/
  maxRetries : Nat
  /-- Whether `ocr_service.extract_mrz_zone` returns a match. -/
  mrzFound : Bool
  /-- An unexpected exception in the face-detection / indexing phase. -/
  orchestratorError : Option String

/-- The OCR retry loop of `process_document_task` (lines 45-96):
`for attempt in range(1, MAX_RETRIES_OCR + 1)`.  On success an `OCRResult`
row with the current attempt number is committed and the loop breaks; on
failure a `ProcessingFailure` row with the current attempt number is
committed and the loop continues.  Returns (OCRResult attempt numbers,
ProcessingFailure attempt numbers, succeeding attempt if any), rows in
commit order. -/
def ocrRetryLoop (ocr : Nat → Bool) : Nat → Nat → List Nat × List Nat × Option Nat
  | _, 0 => ([], [], none)
  | attempt, remaining + 1 =>
    if ocr attempt then
      ([attempt], [], some attempt)
    else
      let t := ocrRetryLoop ocr (attempt + 1) remaining
      (t.1, attempt :: t.2.1, t.2.2)

/-- Database effect of one run of `process_document_task` on a fresh
document. -/
structure RunResult where
  /-- The run actually processed the document (it was found in the db). -/
  ran : Bool
  /-- The `attempt_number` of each committed `OCRResult` row, in commit order. -/
  ocrAttempts : List Nat
  /-- The `attempt_number` of each committed `ocr_failed` `ProcessingFailure`
  row, in commit order. -/
  failures : List Nat
  /-- A `processing_error` `ProcessingFailure` row was committed. -/
  processingErrorLogged : Bool
  /-- Final value of `document.has_mrz`. -/
  hasMrz : Bool
  /-- Final value of `document.processing_status`. -/
  finalStatus : String
  deriving Repr, DecidableEq

/-- Embedding of `process_document_task` (document_processing.py lines
16-204).  If the document is missing the task returns at once (the status
column keeps its pre-run value, `"pending"` for a fresh upload).  Otherwise
the OCR retry loop runs; on success MRZ extraction may set `has_mrz`; an
unexpected exception forces status `"failed"` and logs a
`processing_error` failure; otherwise the final status is `"completed"`
when some OCR attempt succeeded and `"requires_review"` when none did. -/
def process_document_task (env : PipelineEnv) : RunResult :=
  if env.documentExists then
    let t := ocrRetryLoop env.ocr 1 env.maxRetries
    let mrz := t.2.2.isSome && env.mrzFound
    match env.orchestratorError with
    | some _ =>
      { ran := true, ocrAttempts := t.1, failures := t.2.1,
        processingErrorLogged := true, hasMrz := mrz, finalStatus := "failed" }
    | none =>
      { ran := true, ocrAttempts := t.1, failures := t.2.1,
        processingErrorLogged := false, hasMrz := mrz,
        finalStatus := if t.2.2.isSome then ("completed") else ("requires_review") }
  else
    { ran := false, ocrAttempts := [], failures := [],
      processingErrorLogged := false, hasMrz := false, finalStatus := "pending" }

/-! ### Upload dispatch (`app/routes/documents.py` lines 110-126)

After creating a new Document the route tries `process_document_task.delay`;
if the task-queue backend is unreachable it falls back to
`from ..tasks.document_processing import process_document_sync` followed by
`process_document_sync(document.id)`.  The names actually defined at module
level in `app/tasks/document_processing.py` are listed below; an import of
a missing name raises `ImportError`, which the surrounding
`except Exception` turns into `document.processing_status = "failed"`. -/

/-- Module-level callables defined in `app/tasks/document_processing.py`. -/
def documentProcessingExports : List String :=
  ["process_document_task", "batch_process_documents"]

/-- Terminal status produced by the dispatch block of `upload_document` for
a fresh document, as a function of whether the task-queue dispatch
succeeds.  The asynchronous path runs `process_document_task` in a worker;
the synchronous fallback first has to import `process_document_sync`. -/
def dispatchProcessing (celeryAvailable : Bool) (env : PipelineEnv) : String :=
  if celeryAvailable then
    (process_document_task env).finalStatus
  else
    if documentProcessingExports.contains ("process_document_sync") then
      (process_document_task env).finalStatus
    else
      "failed"

/-! ### Structured-field (MRZ) extraction (`app/services/ocr_service.py`
lines 349-424)

`extract_mrz_zone` OCRs the image, splits the text on newlines, and for
each start index tries, in order, the TD3 (two 44-char lines), TD1 (three
30-char lines) and TD2 (two 36-char lines) signatures, handing each
candidate to the corresponding checker of the external `mrz` library and
returning on the first candidate whose checker validates.  The checkers
are external code, embedded as oracle functions on the joined candidate
text (construction failure and `valid() == False` both count as `false`,
matching the `try/except: pass` in the source). -/

inductive MrzFormat
  | td3
  | td1
  | td2
  deriving DecidableEq, Repr

/-- Oracles for `TD3CodeChecker`, `TD1CodeChecker`, `TD2CodeChecker` of the
external `mrz` library, applied to the newline-joined candidate lines. -/
structure MrzCheckers where
  td3valid : String → Bool
  td1valid : String → Bool
  td2valid : String → Bool

/-- The checker the source uses for each fixed-width signature. -/
def checkerFor (ck : MrzCheckers) : MrzFormat → String → Bool
  | .td3 => ck.td3valid
  | .td1 => ck.td1valid
  | .td2 => ck.td2valid

/-- Sequential-return control flow of the scan loop body: the first check
that produced a value returns it, otherwise the scan continues. -/
def firstSome {α : Type} : Option α → Option α → Option α
  | some r, _ => some r
  | none, b => b

/-- The scan loop of `extract_mrz_zone` (`for i in range(len(lines))`).
At index `i` the source checks `lines[i] .. lines[i+2]` with bounds
guards, stripping each line before measuring its length; a window whose
lengths match a signature is validated by that format's checker and, on
success, returned at once together with the joined code handed to the
checker. -/
def mrzScan (ck : MrzCheckers) : List String → Option (MrzFormat × String)
  | [] => none
  | [_] => none
  | l1 :: l2 :: rest =>
    let t1 := l1.trim
    let t2 := l2.trim
    let td3res : Option (MrzFormat × String) :=
      if t1.length = 44 ∧ t2.length = 44 then
        if ck.td3valid (t1 ++ "\n" ++ t2) then some (.td3, t1 ++ "\n" ++ t2) else none
      else none
    let td1res : Option (MrzFormat × String) :=
      match rest with
      | l3 :: _ =>
        if t1.length = 30 ∧ t2.length = 30 ∧ (l3.trim).length = 30 then
          if ck.td1valid (t1 ++ "\n" ++ t2 ++ "\n" ++ l3.trim) then
            some (.td1, t1 ++ "\n" ++ t2 ++ "\n" ++ l3.trim)
          else none
        else none
      | [] => none
    let td2res : Option (MrzFormat × String) :=
      if t1.length = 36 ∧ t2.length = 36 then
        if ck.td2valid (t1 ++ "\n" ++ t2) then some (.td2, t1 ++ "\n" ++ t2) else none
      else none
    firstSome td3res (firstSome td1res (firstSome td2res (mrzScan ck (l2 :: rest))))

/-- Embedding of `extract_mrz_zone`: `None` when the OCR pass fails,
otherwise the scan over the newline-split text. -/
def extract_mrz_zone (ck : MrzCheckers) (ocrSuccess : Bool) (fullText : String) :
    Option (MrzFormat × String) :=
  if ocrSuccess then mrzScan ck (fullText.splitOn ("\n")) else none

/-- Modelled from the spec (§4.4): the list of candidate windows, in scan
order — for each start line, first the two-44-char signature, then the
three-30-char signature, then the two-36-char signature.  Used as the
spec-side description against which `mrzScan` is compared. -/
def mrzWindows : List String → List (MrzFormat × String)
  | [] => []
  | [_] => []
  | l1 :: l2 :: rest =>
    let t1 := l1.trim
    let t2 := l2.trim
    (if t1.length = 44 ∧ t2.length = 44 then [(MrzFormat.td3, t1 ++ "\n" ++ t2)] else []) ++
    (match rest with
     | l3 :: _ =>
       if t1.length = 30 ∧ t2.length = 30 ∧ (l3.trim).length = 30 then
         [(MrzFormat.td1, t1 ++ "\n" ++ t2 ++ "\n" ++ l3.trim)]
       else []
     | [] => []) ++
    (if t1.length = 36 ∧ t2.length = 36 then [(MrzFormat.td2, t1 ++ "\n" ++ t2)] else []) ++
    mrzWindows (l2 :: rest)

/-- Modelled from the spec (§4.4): first candidate window whose format
checksum validates, none otherwise. -/
def mrz_first_valid_spec (ck : MrzCheckers) (lines : List String) :
    Option (MrzFormat × String) :=
  (mrzWindows lines).find? (fun fc => checkerFor ck fc.1 fc.2)

/-! ### Upload deduplication (`app/routes/documents.py` lines 67-142 and
`app/utils/security.py` lines 16-23)

`calculate_file_hash` is a SHA-256 digest of the file bytes: a pure
function of the content, embedded as an oracle `List Nat → String`.  The
route looks the digest up among existing Documents; a hit returns the
existing row (`is_duplicate = True`) before the dispatch block, a miss
inserts a fresh row and dispatches processing. -/

structure DocRow where
  id : Nat
  file_hash : String
  processing_status : String
  deriving DecidableEq, Repr

/-- Result of the upload route relevant to deduplication. -/
structure UploadOutcome where
  /-- Documents table after the request. -/
  db : List DocRow
  /-- Field `document_id` of the response. -/
  document_id : Nat
  /-- Field `is_duplicate` of the response. -/
  is_duplicate : Bool
  /-- The request dispatched a processing run (async or sync fallback). -/
  dispatched : Bool
  deriving DecidableEq, Repr

/-- Embedding of the dedup logic of `upload_document`: find the first
Document with the uploaded content's hash; return it without dispatching
if present, otherwise insert a fresh `pending` row and dispatch. -/
def upload_document (db : List DocRow) (fileHash : String) (freshId : Nat) :
    UploadOutcome :=
  match db.find? (fun d => d.file_hash == fileHash) with
  | some existing =>
    { db := db, document_id := existing.id, is_duplicate := true, dispatched := false }
  | none =>
    { db := db ++ [{ id := freshId, file_hash := fileHash, processing_status := "pending" }],
      document_id := freshId, is_duplicate := false, dispatched := true }

/-! ### Face quality (`app/services/face_recognition.py` lines 210-239)

`_calculate_face_quality` combines the detection confidence, the bounding
box area normalized to a 300x300 reference, and a pose-frontality score
(or a fixed 0.15 when the face object has no pose attribute), clamping the
sum to [0, 1].  Floats are modelled as exact rationals. -/

structure FaceBBox where
  x1 : ℚ
  y1 : ℚ
  x2 : ℚ
  y2 : ℚ
  deriving DecidableEq, Repr

/-- The fields of an InsightFace face object read by
`_calculate_face_quality`. -/
structure InsightFaceObj where
  det_score : ℚ
  bbox : FaceBBox
  /-- Value of `face.pose` when the attribute exists. -/
  pose : Option (ℚ × ℚ × ℚ)
  deriving DecidableEq

/-- Embedding of `_calculate_face_quality`. -/
def calculate_face_quality (f : InsightFaceObj) : ℚ :=
  let q1 := f.det_score * (4 / 10)
  let face_size := (f.bbox.x2 - f.bbox.x1) * (f.bbox.y2 - f.bbox.y1)
  let size_score := min (face_size / (300 * 300)) 1
  let q2 := q1 + size_score * (3 / 10)
  let q3 :=
    match f.pose with
    | some (p0, p1, p2) => q2 + max 0 (1 - (|p0| + |p1| + |p2|) / 90) * (3 / 10)
    | none => q2 + 15 / 100
  min (max q3 0) 1

/-! ### Embedding comparison (`app/services/face_recognition.py` lines
286-320)

`compare_faces` divides each embedding by its `np.linalg.norm`, takes the
dot product, and maps the cosine from [-1, 1] to [0, 1].  The float square
root inside `np.linalg.norm` is external; it is embedded as an oracle
`norm : List ℚ → ℚ` whose defining property `norm a * norm a = dotQ a a`
is assumed where a theorem needs it. -/

/-- Dot product of two embedding vectors (`np.dot`). -/
def dotQ : List ℚ → List ℚ → ℚ
  | a :: as, b :: bs => a * b + dotQ as bs
  | _, _ => 0

/-- Embedding of `compare_faces`, parametrized by the external norm. -/
def compare_faces (norm : List ℚ → ℚ) (embedding1 embedding2 : List ℚ) : ℚ :=
  let emb1 := embedding1.map (· / norm embedding1)
  let emb2 := embedding2.map (· / norm embedding2)
  let similarity := dotQ emb1 emb2
  (similarity + 1) / 2

/-! ### Face index writer / reader (`app/services/elasticsearch_service.py`
lines 127-227) and the OpenCV fallback sentinel
(`app/services/face_recognition.py` lines 160-208)

The Elasticsearch backend is external: what the repository code does is
(a) build the stored document and upsert it keyed by the face id, with no
inspection of the embedding vector, and (b) walk the backend's kNN
response hits keeping those whose score reaches the threshold, again with
no inspection of embeddings.  The backend's response is an oracle input. -/

/-- The all-zero sentinel embedding produced by `_detect_with_opencv`
(`dummy_embedding = [0.0] * 512`). -/
def sentinelEmbedding : List ℚ := List.replicate 512 0

/-- A face whose embedding is the all-zero sentinel. -/
def isSentinel (e : List ℚ) : Bool := e.length == 512 && e.all (· == 0)

/-- A stored document of the face collection. -/
structure FaceIndexEntry where
  face_id : Nat
  document_id : Nat
  embedding_vector : List ℚ
  quality_score : ℚ
  deriving DecidableEq, Repr

/-- Embedding of `index_face_embedding`: `False` without a connection,
otherwise an upsert keyed by `face_id` (ES `client.index` with an explicit
id overwrites) that stores the embedding as given.  Returns the success
flag and the new collection state. -/
def index_face_embedding (connected : Bool) (index : List FaceIndexEntry)
    (face_id document_id : Nat) (embedding : List ℚ) (quality_score : ℚ) :
    Bool × List FaceIndexEntry :=
  if connected then
    (true,
      index.filter (fun e => e.face_id ≠ face_id) ++
        [{ face_id := face_id, document_id := document_id,
           embedding_vector := embedding, quality_score := quality_score }])
  else
    (false, index)

/-- One hit of the backend's kNN response (`response["hits"]["hits"]`). -/
structure EsFaceHit where
  face_id : Nat
  document_id : Nat
  /-- Score of the hit (`_score`). -/
  score : ℚ
  quality_score : ℚ
  deriving DecidableEq, Repr

/-- Embedding of `search_similar_faces`: `[]` without a connection,
otherwise the backend's response hits filtered by
`similarity >= similarity_threshold`.  The backend's kNN response to the
query vector is the oracle argument `responseHits`. -/
def search_similar_faces (connected : Bool) (responseHits : List EsFaceHit)
    (similarity_threshold : ℚ) : List EsFaceHit :=
  if connected then
    responseHits.filter (fun h => similarity_threshold ≤ h.score)
  else
    []

/-- The property claimed of the code: a face indexed with the sentinel
embedding is never among the search results, whatever response the
external index produces over the resulting collection. -/
def sentinelNonMatchable : Prop :=
  ∀ (idx : List FaceIndexEntry) (fid did : Nat) (q th : ℚ)
    (respFn : List FaceIndexEntry → List EsFaceHit),
    ∀ h ∈ search_similar_faces true
        (respFn (index_face_embedding true idx fid did sentinelEmbedding q).2) th,
      h.face_id ≠ fid

/-! ### Search service (`app/services/search_service.py`)

Both service methods wrap their whole body in `try/except Exception`,
returning an error dictionary from the handler.  This is embedded as an
inner computation in `Except String` (steps that can raise — base64
decoding / temp-file writing, and the per-hit database lookups — are
oracles returning `Except`), plus an outer function that realises the
handler.  `get_embedding_from_image` and the two Elasticsearch query
helpers catch their own exceptions and return `None` / `[]`, so they
appear as plain oracle values. -/

/-- A `faces` table row as read by the join. -/
structure FaceRow where
  id : Nat
  document_id : Nat
  bbox : Option (Int × Int × Int × Int)
  deriving DecidableEq, Repr

/-- A `documents` table row as read by the join. -/
structure DocumentRow where
  id : Nat
  original_filename : String
  file_type : String
  has_mrz : Bool
  deriving DecidableEq, Repr

/-- The MRZ display fields attached to a hit. -/
structure MrzSummary where
  document_number : String
  surname : String
  given_names : String
  deriving DecidableEq, Repr

/-- One element of the `results` list built by `search_by_face`. -/
structure FaceSearchHit where
  document_id : Nat
  face_id : Nat
  similarity_score : ℚ
  filename : String
  file_type : String
  face_bbox : Option (Int × Int × Int × Int)
  mrz_data : Option MrzSummary
  deriving DecidableEq, Repr

/-- The dictionary returned by `search_by_face` (the wall-clock
`execution_time_seconds` field is not modelled). -/
structure FaceSearchResult where
  query_image_hash : String
  similarity_threshold : ℚ
  results_count : Nat
  results : List FaceSearchHit
  error : Option String
  deriving DecidableEq, Repr

/-- External world of one `search_by_face` call. -/
structure FaceSearchEnv where
  /-- base64 decode + temp-file write; `ok` carries the query hash. -/
  decode : Except String String
  /-- Result of `get_embedding_from_image` (never raises; `none` = no face). -/
  queryEmbedding : Option (List ℚ)
  /-- kNN response hits of the external index for this query. -/
  esResponse : List EsFaceHit
  /-- The index client holds a live connection. -/
  connected : Bool
  /-- Lookup `db.query(Face).filter(...).first()`. -/
  faceLookup : Nat → Except String (Option FaceRow)
  /-- Lookup `db.query(Document).filter(...).first()`. -/
  docLookup : Nat → Except String (Option DocumentRow)
  /-- Lookup `db.query(MRZData).filter(...).first()`. -/
  mrzLookup : Nat → Option MrzSummary

/-- The per-hit join loop of `search_by_face` (lines 71-113): a hit whose
face or document row is missing is skipped; a raised database error
propagates to the handler. -/
def joinFaceHits (env : FaceSearchEnv) : List EsFaceHit → Except String (List FaceSearchHit)
  | [] => .ok []
  | h :: hs => do
    match ← env.faceLookup h.face_id with
    | none => joinFaceHits env hs
    | some face =>
      match ← env.docLookup face.document_id with
      | none => joinFaceHits env hs
      | some doc =>
        let mrz := if doc.has_mrz then env.mrzLookup doc.id else none
        let rest ← joinFaceHits env hs
        .ok ({ document_id := doc.id, face_id := face.id, similarity_score := h.score,
               filename := doc.original_filename, file_type := doc.file_type,
               face_bbox := face.bbox, mrz_data := mrz } :: rest)

/-- The `try` block of `search_by_face` (lines 40-126). -/
def search_by_face_inner (env : FaceSearchEnv) (similarity_threshold : ℚ) :
    Except String FaceSearchResult := do
  let query_hash ← env.decode
  match env.queryEmbedding with
  | none =>
    .ok { query_image_hash := query_hash, similarity_threshold := similarity_threshold,
          results_count := 0, results := [],
          error := some ("No face detected in query image") }
  | some _ =>
    let es_results := search_similar_faces env.connected env.esResponse similarity_threshold
    let results ← joinFaceHits env es_results
    .ok { query_image_hash := query_hash, similarity_threshold := similarity_threshold,
          results_count := results.length, results := results, error := none }

/-- Embedding of `search_by_face`: the `try` block with the
`except Exception` handler of lines 128-137. -/
def search_by_face (env : FaceSearchEnv) (similarity_threshold : ℚ) : FaceSearchResult :=
  match search_by_face_inner env similarity_threshold with
  | .ok r => r
  | .error e =>
    { query_image_hash := "", similarity_threshold := similarity_threshold,
      results_count := 0, results := [], error := some e }

/-- One hit of `search_documents_text`. -/
structure EsTextHit where
  document_id : Nat
  score : ℚ
  highlight : Option String
  deriving DecidableEq, Repr

/-- One element of the `results` list built by `search_by_text`. -/
structure TextSearchHit where
  document_id : Nat
  score : ℚ
  highlight : Option String
  filename : String
  file_type : String
  has_mrz : Bool
  deriving DecidableEq, Repr

/-- The dictionary returned by `search_by_text` (wall-clock time not
modelled). -/
structure TextSearchResult where
  query : String
  results_count : Nat
  results : List TextSearchHit
  error : Option String
  deriving DecidableEq, Repr

/-- External world of one `search_by_text` call. -/
structure TextSearchEnv where
  /-- Result of `search_documents_text` (never raises; `[]` on its errors). -/
  esResults : List EsTextHit
  /-- Lookup `db.query(Document).filter(...).first()`. -/
  docLookup : Nat → Except String (Option DocumentRow)

/-- The per-hit join loop of `search_by_text` (lines 169-188). -/
def joinTextHits (env : TextSearchEnv) : List EsTextHit → Except String (List TextSearchHit)
  | [] => .ok []
  | h :: hs => do
    match ← env.docLookup h.document_id with
    | none => joinTextHits env hs
    | some doc =>
      let rest ← joinTextHits env hs
      .ok ({ document_id := doc.id, score := h.score, highlight := h.highlight,
             filename := doc.original_filename, file_type := doc.file_type,
             has_mrz := doc.has_mrz } :: rest)

/-- The `try` block of `search_by_text` (lines 160-197). -/
def search_by_text_inner (env : TextSearchEnv) (query : String) :
    Except String TextSearchResult := do
  let results ← joinTextHits env env.esResults
  .ok { query := query, results_count := results.length, results := results, error := none }

/-- Embedding of `search_by_text`: the `try` block with the
`except Exception` handler of lines 199-207. -/
def search_by_text (env : TextSearchEnv) (query : String) : TextSearchResult :=
  match search_by_text_inner env query with
  | .ok r => r
  | .error e =>
    { query := query, results_count := 0, results := [], error := some e }

/-! ### Concrete environments used to instantiate the theorems -/

/-- A run in which the document exists, every OCR attempt succeeds, and
nothing unexpected happens. -/
def envAllOk : PipelineEnv :=
  { documentExists := true, ocr := fun _ => true, maxRetries := 3,
    mrzFound := false, orchestratorError := none }

/-- A run in which OCR attempt 1 fails and attempt 2 succeeds. -/
def envSecondTry : PipelineEnv :=
  { documentExists := true, ocr := fun a => a == 2, maxRetries := 3,
    mrzFound := false, orchestratorError := none }

/-- The pose-frontality score of `_calculate_face_quality` (lines
232-235): lower absolute pose angles mean a more frontal face. -/
def poseFrontality (p : ℚ × ℚ × ℚ) : ℚ :=
  max 0 (1 - (|p.1| + |p.2.1| + |p.2.2|) / 90)

/-- Modelled from the spec (§4.5): the quality score as the spec phrases
it — 40% detection confidence, 30% face area normalized to a 300x300
reference capped at 1, 30% pose-frontality (or a fixed neutral default of
half the pose weight when pose is unavailable), clamped to [0, 1]. -/
def quality_weighted_spec (f : InsightFaceObj) : ℚ :=
  min
    (max
      ((4 / 10) * f.det_score +
        (3 / 10) * min (((f.bbox.x2 - f.bbox.x1) * (f.bbox.y2 - f.bbox.y1)) / (300 * 300)) 1 +
        (match f.pose with
         | some p => (3 / 10) * poseFrontality p
         | none => (3 / 10) / 2))
      0)
    1

/-- A norm oracle used to instantiate the embedding-comparison theorem:
it returns the exact Euclidean norm 5 of the vector (3, 4). -/
def normW : List ℚ → ℚ := fun v => if v = [3, 4] then 5 else 1

/-- A kNN response hit whose stored face (id 7) was indexed with the
sentinel embedding and which the external index scored 0.9. -/
def sentinelHit : EsFaceHit :=
  { face_id := 7, document_id := 3, score := 9 / 10, quality_score := 1 / 2 }

/-- A face-search call whose query image contains no detectable face. -/
def envNoFace : FaceSearchEnv :=
  { decode := .ok ("abc123"), queryEmbedding := none, esResponse := [], connected := true,
    faceLookup := fun _ => .ok none, docLookup := fun _ => .ok none,
    mrzLookup := fun _ => none }

/-- A face-search call whose base64 decoding raises. -/
def envFaceBoom : FaceSearchEnv :=
  { decode := .error ("boom"), queryEmbedding := none, esResponse := [], connected := false,
    faceLookup := fun _ => .ok none, docLookup := fun _ => .ok none,
    mrzLookup := fun _ => none }

/-- A text-search call whose database lookup raises on the first hit. -/
def envTextBoom : TextSearchEnv :=
  { esResults := [{ document_id := 1, score := 1, highlight := none }],
    docLookup := fun _ => .error ("db down") }

/-!  ## Theorems  -/

/-- In the OCR retry loop started at attempt `s` with `r` attempts left,
the failure rows followed by the success row (if any) carry consecutive
attempt numbers from `s`, at most `r` of them, and at most one success
row is committed. -/
theorem ocrRetryLoop_spec (ocr : Nat → Bool) :
    ∀ r s : Nat,
      (ocrRetryLoop ocr s r).2.1 ++ (ocrRetryLoop ocr s r).1 =
        List.range' s ((ocrRetryLoop ocr s r).2.1 ++ (ocrRetryLoop ocr s r).1).length ∧
      ((ocrRetryLoop ocr s r).2.1 ++ (ocrRetryLoop ocr s r).1).length ≤ r ∧
      (ocrRetryLoop ocr s r).1.length ≤ 1 := by
  intro r
  induction r with
  | zero => intro s; simp [ocrRetryLoop]
  | succ n ih =>
    intro s
    by_cases h : ocr s
    · simp [ocrRetryLoop, h, List.range']
    · obtain ⟨ih1, ih2, ih3⟩ := ih (s + 1)
      simp only [ocrRetryLoop, h, if_false, Bool.false_eq_true, List.cons_append,
        List.length_cons]
      refine ⟨?_, ?_, ih3⟩
      · rw [List.range', ← ih1]
      · omega

/-- The OCR retry loop records no success exactly when every attempt in
its range fails. -/
theorem ocrRetryLoop_none_iff (ocr : Nat → Bool) :
    ∀ r s : Nat,
      (ocrRetryLoop ocr s r).2.2 = none ↔
        ∀ a, s ≤ a → a < s + r → ocr a = false := by
  intro r
  induction r with
  | zero =>
    intro s
    simp only [ocrRetryLoop]
    constructor
    · intro _ a ha1 ha2; omega
    · intro _; trivial
  | succ n ih =>
    intro s
    by_cases h : ocr s
    · simp only [ocrRetryLoop, h, if_true]
      constructor
      · intro hnone; cases hnone
      · intro hall
        have := hall s (Nat.le_refl s) (by omega)
        rw [h] at this
        cases this
    · simp only [ocrRetryLoop, h, if_false, Bool.false_eq_true]
      rw [ih (s + 1)]
      constructor
      · intro hall a ha1 ha2
        rcases Nat.eq_or_lt_of_le ha1 with heq | hlt
        · subst heq; exact Bool.eq_false_iff.mpr h
        · exact hall a hlt (by omega)
      · intro hall a ha1 ha2
        exact hall a (by omega) (by omega)

/-- Claim C1: for every upload whose asynchronous dispatch fails, the
synchronous fallback is claimed to drive the Document to the same terminal
status as the asynchronous path.  In the source the fallback imports
`process_document_sync` from `app.tasks.document_processing`, a name that
module does not define, so the import raises and the handler forces status
`failed`: the fallback ends in `failed` for every run, while the
asynchronous path for the same inputs can end in `completed`. -/
theorem C1_sync_fallback_always_fails :
    documentProcessingExports.contains ("process_document_sync") = false ∧
    (∀ env : PipelineEnv, dispatchProcessing false env = "failed") ∧
    dispatchProcessing true envAllOk = "completed" ∧
    dispatchProcessing false envAllOk = "failed" := by
  refine ⟨by decide, fun env => ?_, by decide, by decide⟩
  simp [dispatchProcessing, documentProcessingExports]

/-- Claim C2 (counterexample): the attempt numbers of the `OCRResult` rows
alone are not a contiguous sequence starting at 1: a run whose first OCR
attempt fails and whose second succeeds commits exactly one `OCRResult`
row, with attempt number 2. -/
theorem C2_counterexample :
    (process_document_task envSecondTry).ocrAttempts = [2] ∧
    ¬ ∀ env : PipelineEnv,
        (process_document_task env).ocrAttempts =
          List.range' 1 (process_document_task env).ocrAttempts.length := by
  refine ⟨by decide, fun h => absurd (h envSecondTry) (by decide)⟩

/-- Claim C2 (amended): after a run of the orchestrator on a fresh
document, the attempt numbers of the `ProcessingFailure` rows followed by
those of the `OCRResult` rows form a contiguous sequence starting at 1, at
most one `OCRResult` row (the succeeding attempt) is committed, and no
attempt number exceeds the configured retry bound. -/
theorem C2_attempt_numbers (env : PipelineEnv) (hdoc : env.documentExists = true) :
    (process_document_task env).failures ++ (process_document_task env).ocrAttempts =
      List.range' 1
        ((process_document_task env).failures ++ (process_document_task env).ocrAttempts).length ∧
    (process_document_task env).ocrAttempts.length ≤ 1 ∧
    ∀ a ∈ (process_document_task env).failures ++ (process_document_task env).ocrAttempts,
      a ≤ env.maxRetries := by
  obtain ⟨h1, h2, h3⟩ := ocrRetryLoop_spec env.ocr env.maxRetries 1
  have hfa :
      (process_document_task env).failures = (ocrRetryLoop env.ocr 1 env.maxRetries).2.1 ∧
      (process_document_task env).ocrAttempts = (ocrRetryLoop env.ocr 1 env.maxRetries).1 := by
    cases herr : env.orchestratorError <;>
      simp [process_document_task, hdoc, herr]
  rw [hfa.1, hfa.2]
  refine ⟨h1, h3, fun a ha => ?_⟩
  rw [h1] at ha
  have := List.mem_range'_1.mp ha
  omega

/-- Claim C2 (witness): the amended statement evaluated on the
fail-then-succeed run: failure row 1 followed by success row 2 is the
sequence 1, 2, bounded by the retry bound 3. -/
theorem C2_attempt_numbers_witness :
    (process_document_task envSecondTry).failures ++
        (process_document_task envSecondTry).ocrAttempts =
      List.range' 1
        ((process_document_task envSecondTry).failures ++
          (process_document_task envSecondTry).ocrAttempts).length ∧
    (process_document_task envSecondTry).ocrAttempts.length ≤ 1 ∧
    ∀ a ∈ (process_document_task envSecondTry).failures ++
        (process_document_task envSecondTry).ocrAttempts,
      a ≤ envSecondTry.maxRetries :=
  C2_attempt_numbers envSecondTry rfl

/-- Claim C3: in a run without an orchestrator-level exception, a document
none of whose OCR attempts succeeds ends in `requires_review` (never
`completed`), and a document with a succeeding attempt ends in
`completed`. -/
theorem C3_final_status (env : PipelineEnv)
    (hdoc : env.documentExists = true) (herr : env.orchestratorError = none) :
    ((∀ a, 1 ≤ a → a ≤ env.maxRetries → env.ocr a = false) →
      (process_document_task env).finalStatus = "requires_review" ∧
      (process_document_task env).finalStatus ≠ "completed") ∧
    ((∃ a, 1 ≤ a ∧ a ≤ env.maxRetries ∧ env.ocr a = true) →
      (process_document_task env).finalStatus = "completed") := by
  have hstat :
      (process_document_task env).finalStatus =
        if (ocrRetryLoop env.ocr 1 env.maxRetries).2.2.isSome then ("completed")
        else ("requires_review") := by
    simp [process_document_task, hdoc, herr]
  constructor
  · intro hall
    have hnone : (ocrRetryLoop env.ocr 1 env.maxRetries).2.2 = none :=
      (ocrRetryLoop_none_iff env.ocr env.maxRetries 1).mpr
        (fun a ha1 ha2 => hall a ha1 (by omega))
    rw [hstat, hnone]
    exact ⟨rfl, by decide⟩
  · rintro ⟨a, ha1, ha2, ha⟩
    have hne : (ocrRetryLoop env.ocr 1 env.maxRetries).2.2 ≠ none := by
      intro hnone
      have := (ocrRetryLoop_none_iff env.ocr env.maxRetries 1).mp hnone a ha1 (by omega)
      rw [ha] at this
      cases this
    rw [hstat, if_pos (Option.isSome_iff_ne_none.mpr hne)]

/-- Claim C3 (witness): the all-attempts-succeed run ends `completed`, and
an all-attempts-fail run ends `requires_review`. -/
theorem C3_final_status_witness :
    (process_document_task envAllOk).finalStatus = "completed" :=
  (C3_final_status envAllOk rfl rfl).2 ⟨1, Nat.le_refl 1, by decide, rfl⟩

/-- A guarded single check, followed on failure by the rest of the scan,
is a nested conditional. -/
theorem firstSome_guard {α : Type} (c : Prop) [Decidable c] (v : Bool) (x : α)
    (k : Option α) :
    firstSome (if c then (if v then some x else none) else none) k =
      if c then (if v then some x else k) else k := by
  split_ifs <;> rfl

/-- A failed check hands control to the rest of the scan. -/
theorem firstSome_none {α : Type} (k : Option α) : firstSome none k = k := rfl

/-- Searching a guarded singleton followed by a list. -/
theorem find?_guard_append {α : Type} (p : α → Bool) (c : Prop) [Decidable c]
    (x : α) (l : List α) :
    List.find? p ((if c then [x] else []) ++ l) =
      if c then (if p x then some x else List.find? p l) else List.find? p l := by
  split_ifs with hc hp
  · simp [List.find?_cons, hp]
  · simp [List.find?_cons, hp]
  · simp

/-- Searching a guarded singleton. -/
theorem find?_guard {α : Type} (p : α → Bool) (c : Prop) [Decidable c] (x : α) :
    List.find? p (if c then [x] else []) =
      if c then (if p x then some x else none) else none := by
  split_ifs with hc hp
  · simp [List.find?_cons, hp]
  · simp [List.find?_cons, hp]
  · simp

/-- Claim C5: the structured-field extractor slides a window over the
consecutive lines, testing the two-44-char, three-30-char and two-36-char
signatures in that order, accepts a candidate only when its format's
checker validates it, and returns the first valid candidate (none when no
window validates): the source scan equals the spec-side
first-valid-window search, and a failed OCR pass yields no match. -/
theorem C5_first_valid_window (ck : MrzCheckers) (ocrSuccess : Bool) (text : String) :
    extract_mrz_zone ck ocrSuccess text =
      (if ocrSuccess then mrz_first_valid_spec ck (text.splitOn ("\n")) else none) := by
  have hscan : ∀ lines : List String, mrzScan ck lines = mrz_first_valid_spec ck lines := by
    intro lines
    induction lines with
    | nil => rfl
    | cons l1 tail ih =>
      cases tail with
      | nil => rfl
      | cons l2 rest =>
        cases rest with
        | nil =>
          simp only [mrzScan, mrz_first_valid_spec, mrzWindows, List.append_assoc,
            List.nil_append, List.append_nil, firstSome_guard, firstSome_none,
            find?_guard_append, find?_guard, List.find?_nil, checkerFor]
        | cons l3 rest2 =>
          simp only [mrzScan, mrz_first_valid_spec, mrzWindows, List.append_assoc,
            List.nil_append, List.append_nil, firstSome_guard, firstSome_none,
            find?_guard_append, find?_guard, List.find?_nil, checkerFor] at ih ⊢
          rw [ih]
  cases ocrSuccess with
  | false => rfl
  | true =>
    simp only [extract_mrz_zone, if_true]
    exact hscan (text.splitOn ("\n"))

/-- Claim C6: `calculate_file_hash` is a pure digest of the file bytes,
so byte-identical uploads carry the same fingerprint; the second of two
uploads with byte-identical content resolves to the Document id returned
by the first, creates no new Document row, reports `is_duplicate`, and
dispatches no processing run. -/
theorem C6_duplicate_upload (sha256 : List Nat → String) (db : List DocRow)
    (content : List Nat) (freshId1 freshId2 : Nat) :
    (upload_document (upload_document db (sha256 content) freshId1).db
        (sha256 content) freshId2).document_id =
      (upload_document db (sha256 content) freshId1).document_id ∧
    (upload_document (upload_document db (sha256 content) freshId1).db
        (sha256 content) freshId2).db =
      (upload_document db (sha256 content) freshId1).db ∧
    (upload_document (upload_document db (sha256 content) freshId1).db
        (sha256 content) freshId2).is_duplicate = true ∧
    (upload_document (upload_document db (sha256 content) freshId1).db
        (sha256 content) freshId2).dispatched = false := by
  cases hfind : db.find? (fun d => d.file_hash == sha256 content) with
  | some existing =>
    simp [upload_document, hfind]
  | none =>
    simp [upload_document, hfind, List.find?_append]

/-- Claim C7: the quality score of a detected face equals 0.4 times the
detection confidence plus 0.3 times the face area normalized to a 300x300
reference capped at 1, plus 0.3 times the pose-frontality score when pose
is available and half the pose weight (0.15) otherwise, clamped to
[0, 1]. -/
theorem C7_quality_score (f : InsightFaceObj) :
    calculate_face_quality f = quality_weighted_spec f ∧
    0 ≤ calculate_face_quality f ∧ calculate_face_quality f ≤ 1 := by
  refine ⟨?_, ?_, ?_⟩
  · cases hp : f.pose with
    | none =>
      simp only [calculate_face_quality, quality_weighted_spec, hp]
      congr 2
      ring
    | some p =>
      obtain ⟨p0, p1, p2⟩ := p
      simp only [calculate_face_quality, quality_weighted_spec, poseFrontality, hp]
      congr 2
      ring
  · cases hp : f.pose <;>
      simp only [calculate_face_quality, hp] <;>
      exact le_min (le_max_right _ _) zero_le_one
  · cases hp : f.pose <;>
      simp only [calculate_face_quality, hp] <;>
      exact min_le_right _ _

/-- The dot product is symmetric in its arguments. -/
theorem dotQ_comm : ∀ a b : List ℚ, dotQ a b = dotQ b a := by
  intro a
  induction a with
  | nil => intro b; cases b <;> simp [dotQ]
  | cons x xs ih =>
    intro b
    cases b with
    | nil => simp [dotQ]
    | cons y ys => simp only [dotQ, ih ys]; ring

/-- Dot product of elementwise-scaled vectors. -/
theorem dotQ_map_div : ∀ (a b : List ℚ) (c d : ℚ),
    dotQ (a.map (· / c)) (b.map (· / d)) = dotQ a b / (c * d) := by
  intro a
  induction a with
  | nil => intro b c d; cases b <;> simp [dotQ]
  | cons x xs ih =>
    intro b c d
    cases b with
    | nil => simp [dotQ]
    | cons y ys =>
      simp only [List.map_cons, dotQ, ih ys]
      rw [div_mul_div_comm, div_add_div_same]

/-- A vector's dot product with itself is nonnegative. -/
theorem dotQ_self_nonneg : ∀ a : List ℚ, 0 ≤ dotQ a a := by
  intro a
  induction a with
  | nil => simp [dotQ]
  | cons x xs ih =>
    simp only [dotQ]
    exact add_nonneg (mul_self_nonneg x) ih

/-- A vector with a nonzero entry has positive self dot product. -/
theorem dotQ_self_pos (a : List ℚ) (x : ℚ) (hx : x ∈ a) (hx0 : x ≠ 0) :
    0 < dotQ a a := by
  induction a with
  | nil => cases hx
  | cons y ys ih =>
    simp only [dotQ]
    rcases List.mem_cons.mp hx with h | h
    · subst h
      exact add_pos_of_pos_of_nonneg (mul_self_pos.mpr hx0) (dotQ_self_nonneg ys)
    · exact add_pos_of_nonneg_of_pos (mul_self_nonneg y) (ih h)

/-- Claim C8: the embedding comparison is symmetric for every pair of
vectors (and every external norm), and on a non-zero vector whose norm
oracle satisfies the defining property of the Euclidean norm the
self-comparison equals 1, the maximum of the 0-to-1 similarity range. -/
theorem C8_compare_embedding (norm : List ℚ → ℚ) (a b : List ℚ) :
    compare_faces norm a b = compare_faces norm b a ∧
    (norm a * norm a = dotQ a a → (∃ x ∈ a, x ≠ 0) → compare_faces norm a a = 1) := by
  constructor
  · simp only [compare_faces]
    rw [dotQ_comm]
  · rintro hn ⟨x, hx, hx0⟩
    have hpos := dotQ_self_pos a x hx hx0
    simp only [compare_faces]
    rw [dotQ_map_div, hn, div_self hpos.ne']
    norm_num

/-- Claim C8 (witness): on the vector (3, 4), whose Euclidean norm is 5,
the self-comparison evaluates to 1. -/
theorem C8_compare_embedding_witness : compare_faces normW [3, 4] [3, 4] = 1 :=
  (C8_compare_embedding normW [3, 4] [3, 4]).2 (by norm_num [normW, dotQ])
    ⟨3, by norm_num⟩

/-- Claim C4 (counterexample): a face indexed with the all-zero sentinel
embedding is a perfectly ordinary index entry — the writer stores it and
reports success, and when the external index scores it above the
threshold the search returns it as a hit, so the code does not treat
sentinel embeddings as non-matchable. -/
theorem C4_counterexample :
    (index_face_embedding true [] 7 3 sentinelEmbedding (1 / 2)).1 = true ∧
    search_similar_faces true [sentinelHit] (6 / 10) = [sentinelHit] ∧
    ¬ sentinelNonMatchable := by
  have hsearch : search_similar_faces true [sentinelHit] (6 / 10) = [sentinelHit] := by
    simp only [search_similar_faces, if_true, List.filter_cons, List.filter_nil]
    norm_num [sentinelHit]
  refine ⟨rfl, hsearch, fun h => ?_⟩
  have hmem : sentinelHit ∈ search_similar_faces true
      ((fun _ => [sentinelHit])
        (index_face_embedding true [] 7 3 sentinelEmbedding (1 / 2)).2) (6 / 10) := by
    rw [show ((fun _ => [sentinelHit])
        (index_face_embedding true [] 7 3 sentinelEmbedding (1 / 2)).2 :
          List EsFaceHit) = [sentinelHit] from rfl, hsearch]
    exact List.mem_singleton.mpr rfl
  exact h [] 7 3 (1 / 2) (6 / 10) (fun _ => [sentinelHit]) sentinelHit hmem rfl

/-- Claim C4 (amended): neither the index writer nor the search reader
inspects embedding vectors: `index_face_embedding` stores a sentinel
embedding unchanged and reports success exactly when connected, and a
response hit is returned by `search_similar_faces` exactly when its score
reaches the threshold, regardless of the stored embedding. -/
theorem C4_sentinel_indexed_like_any (connected : Bool) (idx : List FaceIndexEntry)
    (fid did : Nat) (q th : ℚ) (resp : List EsFaceHit) (h : EsFaceHit) :
    (index_face_embedding connected idx fid did sentinelEmbedding q).1 = connected ∧
    (index_face_embedding true idx fid did sentinelEmbedding q).2 =
      idx.filter (fun e => e.face_id ≠ fid) ++
        [{ face_id := fid, document_id := did, embedding_vector := sentinelEmbedding,
           quality_score := q }] ∧
    (h ∈ search_similar_faces true resp th ↔ h ∈ resp ∧ th ≤ h.score) := by
  refine ⟨?_, rfl, ?_⟩
  · cases connected <;> rfl
  · simp [search_similar_faces, List.mem_filter]

/-- Claim C9: a face search whose query image contains no detectable face
returns normally (the `try` block itself produces the value) with zero
results, an empty result list, and the explicit no-face-detected
reason. -/
theorem C9_no_face_detected (env : FaceSearchEnv) (th : ℚ) (qh : String)
    (hdec : env.decode = .ok qh) (hemb : env.queryEmbedding = none) :
    search_by_face_inner env th =
      .ok { query_image_hash := qh, similarity_threshold := th, results_count := 0,
            results := [], error := some ("No face detected in query image") } ∧
    search_by_face env th =
      { query_image_hash := qh, similarity_threshold := th, results_count := 0,
        results := [], error := some ("No face detected in query image") } := by
  have hinner : search_by_face_inner env th =
      .ok { query_image_hash := qh, similarity_threshold := th, results_count := 0,
            results := [], error := some ("No face detected in query image") } := by
    simp only [search_by_face_inner, hdec, hemb]
    rfl
  exact ⟨hinner, by simp [search_by_face, hinner]⟩

/-- Claim C9 (witness): the no-detectable-face environment evaluated
concretely. -/
theorem C9_no_face_detected_witness :
    search_by_face envNoFace (6 / 10) =
      { query_image_hash := "abc123", similarity_threshold := 6 / 10,
        results_count := 0, results := [],
        error := some ("No face detected in query image") } :=
  (C9_no_face_detected envNoFace (6 / 10) ("abc123") rfl rfl).2

/-- Claim C10: whenever the body of `search_by_face` or `search_by_text`
raises, the surrounding handler returns a result object with zero
results, an empty result list and the exception's message — no exception
propagates to the caller. -/
theorem C10_errors_to_empty_result (envF : FaceSearchEnv) (th : ℚ)
    (envT : TextSearchEnv) (q e1 e2 : String) :
    (search_by_face_inner envF th = .error e1 →
      search_by_face envF th =
        { query_image_hash := "", similarity_threshold := th, results_count := 0,
          results := [], error := some e1 }) ∧
    (search_by_text_inner envT q = .error e2 →
      search_by_text envT q =
        { query := q, results_count := 0, results := [], error := some e2 }) := by
  constructor
  · intro h; simp [search_by_face, h]
  · intro h; simp [search_by_text, h]

/-- Claim C10 (witness): a decode failure in the face search and a
database failure in the text search both surface as empty results with
the error message. -/
theorem C10_errors_to_empty_result_witness :
    search_by_face envFaceBoom (1 / 2) =
      { query_image_hash := "", similarity_threshold := 1 / 2, results_count := 0,
        results := [], error := some ("boom") } ∧
    search_by_text envTextBoom ("ivanov") =
      { query := "ivanov", results_count := 0, results := [],
        error := some ("db down") } :=
  ⟨(C10_errors_to_empty_result envFaceBoom (1 / 2) envTextBoom ("ivanov") ("boom") ("db down")).1 rfl,
   (C10_errors_to_empty_result envFaceBoom (1 / 2) envTextBoom ("ivanov") ("boom") ("db down")).2 rfl⟩

end DocPipeline
